import Mathlib

/-!
Verification of the rusty-build-light polling supervisor and status
aggregation, as implemented in src/main.rs. Pure fragments of the source
(the count computations, the led decision tables, the sleep interval
update, the per-job classification) are embedded as Lean functions; the
supervisor loop run_and_recover is embedded as a terminating recursive
function on its shared state; the f32 arithmetic of the rate limit update
is modelled by exact rationals, which agree with f32 on the small integral
inputs used in the concrete theorems below.
-/

namespace RustyBuildLight

/-- Colors named by the pin::RgbLedLight constants in main.rs
(RED, GREEN, BLUE, TEAL, YELLOW, PURPLE, WHITE). -/
inductive Color where
  | red | green | blue | teal | yellow | purple | white
  deriving DecidableEq, Repr

/-- One led operation performed by the worker loops, mirroring the calls
set_led_rgb_values, glow_led, blink_led and turn_led_off. -/
inductive LedAction where
  | set_led_rgb_values (c : Color)
  | glow_led (c : Color)
  | blink_led (c : Color)
  | turn_led_off
  deriving DecidableEq, Repr

/-- Build statuses of one Jenkins job. Success, Failure, Unstable and
Building are named in main.rs; the Unknown variant stands for the remaining
statuses of the jenkins_response module, which is not among the sources,
following the BuildStatus vocabulary of the spec, section 3. -/
inductive JenkinsBuildStatus where
  | Success | Failure | Unstable | Building | Unknown
  deriving DecidableEq, Repr

/-- Statuses of the jobs whose per-job fetch succeeded: main.rs lines
300-306 split the results by is_ok and unwrap the Ok items. -/
def retrieved_statuses (results : List (Except String JenkinsBuildStatus)) :
    List JenkinsBuildStatus :=
  results.filterMap Except.toOption

/-- Size of the not_retrieved part of the split (main.rs line 309). -/
def not_retrieved_count (results : List (Except String JenkinsBuildStatus)) : Nat :=
  results.countP (fun x => !x.toOption.isSome)

/-- The build_failures count of main.rs lines 310-313: retrieved statuses
equal to Failure or Unstable. -/
def build_failures (results : List (Except String JenkinsBuildStatus)) : Nat :=
  (retrieved_statuses results).countP
    (fun x => x == JenkinsBuildStatus.Failure || x == JenkinsBuildStatus.Unstable)

/-- The indeterminate_count of main.rs lines 314-319: retrieved statuses
that are neither Failure nor Unstable nor Success, plus the jobs whose
fetch failed. -/
def indeterminate_count (results : List (Except String JenkinsBuildStatus)) : Nat :=
  (retrieved_statuses results).countP
      (fun x => x != JenkinsBuildStatus.Failure && x != JenkinsBuildStatus.Unstable
        && x != JenkinsBuildStatus.Success)
    + not_retrieved_count results

/-- The build_successes count of main.rs lines 320-323. -/
def build_successes (results : List (Except String JenkinsBuildStatus)) : Nat :=
  (retrieved_statuses results).countP (fun x => x == JenkinsBuildStatus.Success)

/-- The led decision of run_one_jenkins (main.rs lines 325-352), as a pure
function of the per-job results. -/
def run_one_jenkins_led (results : List (Except String JenkinsBuildStatus)) : LedAction :=
  if build_successes results ≤ 0 then
    if build_failures results < indeterminate_count results ∨ build_failures results = 0 then
      LedAction.glow_led Color.blue
    else
      LedAction.blink_led Color.red
  else
    if build_failures results = 0 then
      if indeterminate_count results < build_successes results then
        LedAction.set_led_rgb_values Color.green
      else
        LedAction.glow_led Color.teal
    else if build_failures results < build_successes results then
      LedAction.glow_led Color.yellow
    else
      LedAction.blink_led Color.red

/-- Indeterminate count as claim C6 and spec section 3 word it: retrieved
statuses outside Success and Failure, plus the unretrieved items. This is a
spec-side definition, written for comparison with indeterminate_count. -/
def spec_indeterminate (results : List (Except String JenkinsBuildStatus)) : Nat :=
  (retrieved_statuses results).countP
      (fun x => x != JenkinsBuildStatus.Success && x != JenkinsBuildStatus.Failure)
    + not_retrieved_count results

/-- Rate limit headers X-RateLimit-Remaining and X-RateLimit-Reset (a unix
timestamp in milliseconds), read from the first retrieved Unity response
(main.rs lines 596-603); either may be absent. -/
structure RateHeaders where
  x_rate_limit_remaining : Option Nat
  x_rate_limit_reset : Option Nat
  deriving DecidableEq, Repr

/-- Modelled from the spec: the unity_cloud_response module is not among
the sources, so the status set follows the BuildStatus vocabulary of spec
section 3; main.rs itself names Success and Failure. -/
inductive UnityBuildStatus where
  | Success | Failure | Unstable | Building | Unknown
  deriving DecidableEq, Repr

/-- Errors of get_unity_platform_status; both variants are named in
main.rs (the errors module itself is not among the sources). -/
inductive UnityRetrievalError where
  | NoBuildsReturned
  | HttpError (http_error_message : String)
  deriving DecidableEq, Repr

/-- One per-platform result of get_unity_cloud_status: a build status with
its response headers, or a retrieval error. -/
abbrev UnityResult := Except UnityRetrievalError (UnityBuildStatus × RateHeaders)

/-- The retrieved_results of run_one_unity (main.rs lines 536-542). -/
def unity_retrieved (results : List UnityResult) : List (UnityBuildStatus × RateHeaders) :=
  results.filterMap Except.toOption

/-- Size of the not_retrieved_results of run_one_unity (lines 543-544). -/
def unity_not_retrieved_count (results : List UnityResult) : Nat :=
  results.countP (fun x => !x.toOption.isSome)

/-- The passing_builds count of main.rs lines 550-553. -/
def passing_builds (results : List UnityResult) : Nat :=
  (unity_retrieved results).countP (fun x => x.1 == UnityBuildStatus.Success)

/-- The failing_builds count of main.rs lines 554-557. -/
def failing_builds (results : List UnityResult) : Nat :=
  (unity_retrieved results).countP (fun x => x.1 == UnityBuildStatus.Failure)

/-- The other_status_builds count of main.rs lines 558-561. -/
def other_status_builds (results : List UnityResult) : Nat :=
  (unity_retrieved results).countP
    (fun x => x.1 != UnityBuildStatus.Success && x.1 != UnityBuildStatus.Failure)

/-- The led decision of run_one_unity (main.rs lines 546-587), as a pure
function of the per-platform results. -/
def run_one_unity_led (results : List UnityResult) : LedAction :=
  if 0 < unity_not_retrieved_count results then
    LedAction.glow_led Color.blue
  else if passing_builds results + failing_builds results < other_status_builds results then
    LedAction.glow_led Color.blue
  else if 0 < passing_builds results ∧ failing_builds results = 0 then
    LedAction.set_led_rgb_values Color.green
  else if passing_builds results = 0 ∧ 0 < failing_builds results then
    LedAction.blink_led Color.red
  else if 0 < passing_builds results ∧ 0 < failing_builds results then
    LedAction.glow_led Color.teal
  else
    LedAction.glow_led Color.purple

/-- The UNITY_SLEEP_DURATION constant of main.rs line 68: 1000 * 60
milliseconds, the normal Unity poll interval. -/
def UNITY_SLEEP_DURATION : Nat := 1000 * 60

/-- Largest u64 value, the saturation point of a Rust float to u64 cast. -/
def U64_MAX : Nat := 2 ^ 64 - 1

/-- Saturating cast of a nonnegative f32 value to u64 (a Rust as-cast),
on the exact rational model of the f32 value. -/
def f32_to_u64 (q : ℚ) : Nat := min (max q.floor 0).toNat U64_MAX

/-- The sleep interval update of run_one_unity (main.rs lines 595-609).
The f32 arithmetic of the source is modelled by exact rationals; the
division 1 / (remaining / window) when remaining is 0 yields the f32
infinity, which survives the max and whose u64 cast saturates, so that
case is written out as U64_MAX. -/
def unity_next_sleep_duration (results : List UnityResult)
    (now_unix_seconds : Nat) (sleep_duration : Nat) : Nat :=
  match unity_retrieved results with
  | [] => sleep_duration
  | r :: _ =>
    match r.2.x_rate_limit_remaining with
    | none => sleep_duration
    | some limit_remaining =>
      match r.2.x_rate_limit_reset with
      | none => sleep_duration
      | some reset_ms =>
        let reset_timestamp_utc : ℚ := (reset_ms : ℚ) / 1000
        let window : ℚ := max (reset_timestamp_utc - (now_unix_seconds : ℚ)) 1
        if limit_remaining = 0 then U64_MAX
        else
          let max_requests_per_second : ℚ := (limit_remaining : ℚ) / window
          f32_to_u64 (max (1 / max_requests_per_second) ((UNITY_SLEEP_DURATION : Nat) : ℚ))

/-- One run_one_unity cycle (main.rs lines 529-613): the led action taken
and the sleep duration returned for the next cycle. -/
def run_one_unity (results : List UnityResult) (now_unix_seconds : Nat)
    (sleep_duration : Nat) : LedAction × Nat :=
  (run_one_unity_led results, unity_next_sleep_duration results now_unix_seconds sleep_duration)

/-- Rate limit hint as the spec, section 3, describes it: remaining quota
and reset timestamp (milliseconds here, matching the header contents). -/
structure RateLimitHint where
  remaining : Nat
  reset_at_ms : Nat
  deriving DecidableEq, Repr

/-- Spec-side definition following the words of spec section 4.3 and claim
C5: window = max(reset_at - now, 1 second), max_rate = remaining / window,
candidate = 1 / max_rate expressed in the same unit as the floor
(milliseconds here), result = max(candidate, floor). Written for
comparison with unity_next_sleep_duration. -/
def spec_next_interval (current : ℚ) (hint : Option RateLimitHint)
    (now_ms : Nat) (floor_ms : ℚ) : ℚ :=
  match hint with
  | none => current
  | some h =>
    let window : ℚ := max ((h.reset_at_ms : ℚ) - (now_ms : ℚ)) 1000
    let max_rate : ℚ := (h.remaining : ℚ) / window
    max (1 / max_rate) floor_ms

/-- Shared state the supervised threads touch: the mutex guarded failure
counter and the atomic running flag of main.rs lines 75 and 85. -/
structure SupervisorState where
  failure_count : Nat
  running : Bool
  deriving DecidableEq, Repr

/-- Return value of run_and_recover: a thread::Result, whose boxed error
holds the formatted fatal message. -/
inductive WorkerResult (R : Type) where
  | ok (value : R)
  | err (message : String)
  deriving DecidableEq, Repr

/-- The supervisor loop run_and_recover (main.rs lines 200-231). The body
takes the attempt index, so one Lean function can describe every behavior
of the Rust closure across repeated calls; an error value is an abnormal
termination caught by catch_unwind. Locking the counter is modelled as
always succeeding: the mutex is poisoned only by an abnormal termination
while it is held, and the body runs outside both lock scopes. -/
def run_and_recover {R : Type} (thread_name : String) (allowed_total_failures : Nat)
    (body : Nat → Except String R) (st : SupervisorState) (attempt : Nat) :
    WorkerResult R × SupervisorState :=
  if _hgt : allowed_total_failures < st.failure_count then
    (WorkerResult.err ("Failure count for " ++ thread_name ++ " exceeded, forcing stop."),
     { st with running := false })
  else
    match body attempt with
    | Except.ok r => (WorkerResult.ok r, st)
    | Except.error _ =>
      run_and_recover thread_name allowed_total_failures body
        { st with failure_count := st.failure_count + 1 } (attempt + 1)
termination_by allowed_total_failures + 1 - st.failure_count
decreasing_by simp_wf; omega

/-- The JenkinsBuildResult of the jenkins_response module (not among the
sources): the building flag and the optional result of the last build; the
option is forced by the unwrap call at main.rs line 405. -/
structure JenkinsBuildResult where
  building : Bool
  build_result : Option JenkinsBuildStatus
  deriving DecidableEq, Repr

/-- Per-job classification of get_jenkins_status (main.rs lines 400-413).
A none value models a thread panic: the branch for a job that is not
building unwraps build_result, which aborts when that field is absent. -/
def classify_job_response (job_response : Except String JenkinsBuildResult) :
    Option (Except String JenkinsBuildStatus) :=
  match job_response with
  | Except.ok job_result =>
    if job_result.building then some (Except.ok JenkinsBuildStatus.Building)
    else
      match job_result.build_result with
      | some unwrapped_result => some (Except.ok unwrapped_result)
      | none => none
  | Except.error job_err => some (Except.error job_err)

/-- Jenkins job colors. Disabled and DisabledAnime are named in main.rs;
the remaining variants stand for the enabled colors of the
jenkins_response module, which is not among the sources. -/
inductive JenkinsJobColor where
  | blue | blueAnime | red | redAnime | yellow | yellowAnime
  | aborted | abortedAnime | notBuilt | notBuiltAnime
  | disabled | disabledAnime
  deriving DecidableEq, Repr

/-- One entry of the Jenkins job list response. -/
structure JenkinsJob where
  name : String
  color : JenkinsJobColor
  deriving DecidableEq, Repr

/-- The Jenkins job list response body. -/
structure JenkinsJobResponse where
  jobs : List JenkinsJob
  deriving DecidableEq, Repr

/-- The filter of get_jenkins_status (main.rs lines 386-388): a job is
processed only when its color is neither Disabled nor DisabledAnime. -/
def job_enabled (job : JenkinsJob) : Bool :=
  job.color != JenkinsJobColor.disabled && job.color != JenkinsJobColor.disabledAnime

/-- The per-job results of get_jenkins_status (main.rs lines 383-415):
enabled jobs are mapped through the per-job fetch and classification.
fetch_job stands for the get_url_response call for one job. -/
def jenkins_job_results (jobs : List JenkinsJob)
    (fetch_job : JenkinsJob → Except String JenkinsBuildResult) :
    List (Option (Except String JenkinsBuildStatus)) :=
  (jobs.filter job_enabled).map (fun job => classify_job_response (fetch_job job))

/-- Collecting the mapped per-job items into a Vec: a panic in any item
(a none) aborts the whole collection. -/
def collect_results {α : Type} : List (Option α) → Option (List α)
  | [] => some []
  | none :: _ => none
  | some a :: rest => (collect_results rest).map (fun l => a :: l)

/-- get_jenkins_status (main.rs lines 367-420), over oracles for the two
network calls: the job list response and the per-job fetch. The outer none
models a panic escaping the function. -/
def get_jenkins_status (all_jobs_response : Except String JenkinsJobResponse)
    (fetch_job : JenkinsJob → Except String JenkinsBuildResult) :
    Option (Except String (List (Except String JenkinsBuildStatus))) :=
  match all_jobs_response with
  | Except.ok result => (collect_results (jenkins_job_results result.jobs fetch_job)).map Except.ok
  | Except.error err => some (Except.error err)

/-- Exit value of the start_thread loop: the clean shutdown path, or
falling out of the loop some other way. -/
inductive LoopExit where
  | clean_shutdown
  | fell_through
  deriving DecidableEq, Repr

/-- The statements placed after the loop in start_thread (main.rs lines
257-262): the shutdown flag check, the white glow and the led off call. -/
def start_thread_after_loop (running_flag : Bool) : List LedAction :=
  if !running_flag then [LedAction.glow_led Color.white, LedAction.turn_led_off] else []

/-- Iterations of the start_thread loop (main.rs lines 254-256), run for a
given number of scheduler steps; update_led gives the led action the
remote integration performs at each iteration. The loop body consists of
the single update_led call and contains no break and no return, so every
step recurses; none means the loop is still running. -/
def start_thread_loop (update_led : Nat → LedAction) (running_flag : Bool) :
    Nat → Option LoopExit
  | 0 => none
  | fuel + 1 =>
    let _ : LedAction := update_led fuel
    start_thread_loop update_led running_flag fuel

/-- start_thread (main.rs lines 251-263): the polling loop followed by the
after loop statements, which would run only if the loop ever exited. -/
def start_thread (update_led : Nat → LedAction) (running_flag : Bool) (fuel : Nat) :
    Option (LoopExit × List LedAction) :=
  (start_thread_loop update_led running_flag fuel).map
    (fun e => (e, start_thread_after_loop running_flag))

/-- C6 (amended): for every sequence of per-job results the Jenkins counts
partition the total, build_successes + build_failures + indeterminate_count
equals the number of results, and the aggregation is a total function. In
the source an Unstable status counts toward build_failures, not toward
indeterminate_count. -/
theorem C6_counts_partition_total (results : List (Except String JenkinsBuildStatus)) :
    build_successes results + build_failures results + indeterminate_count results
      = results.length := by
  induction results with
  | nil => rfl
  | cons head tail ih =>
    cases head with
    | error e =>
      simp only [build_successes, build_failures, indeterminate_count, not_retrieved_count,
        retrieved_statuses, List.filterMap_cons, Except.toOption, List.countP_cons,
        List.length_cons] at *
      simp only [Option.isSome_none, Bool.not_false, if_true]
      omega
    | ok s =>
      cases s <;>
        simp only [build_successes, build_failures, indeterminate_count, not_retrieved_count,
          retrieved_statuses, List.filterMap_cons, Except.toOption, List.countP_cons,
          List.length_cons] at * <;>
        simp_all <;> omega

/-- C6 counterexample: a retrieved Unstable status is counted by the
source as a build failure and not as indeterminate, while the formula of
the claim counts every retrieved status outside Success and Failure as
indeterminate. -/
theorem C6_unstable_counted_as_failure :
    build_failures [Except.ok JenkinsBuildStatus.Unstable] = 1 ∧
    indeterminate_count [Except.ok JenkinsBuildStatus.Unstable] = 0 ∧
    spec_indeterminate [Except.ok JenkinsBuildStatus.Unstable] = 1 := by
  decide

/-- C1 (amended): with at least one success and at least one failure
counted, run_one_jenkins shows the yellow glow (the Degraded signal) when
successes outnumber failures and the red blink (the Unhealthy signal)
otherwise, so a tie resolves to Unhealthy; run_one_unity instead shows the
teal glow (its Degraded signal) for every all-retrieved mixed outcome in
which the indeterminate statuses are not the majority, regardless of the
ratio of successes to failures. -/
theorem C1_mixed_success_failure :
    (∀ results : List (Except String JenkinsBuildStatus),
        0 < build_successes results → 0 < build_failures results →
        run_one_jenkins_led results =
          if build_failures results < build_successes results then
            LedAction.glow_led Color.yellow
          else
            LedAction.blink_led Color.red) ∧
    (∀ results : List UnityResult,
        unity_not_retrieved_count results = 0 →
        0 < passing_builds results → 0 < failing_builds results →
        other_status_builds results ≤ passing_builds results + failing_builds results →
        run_one_unity_led results = LedAction.glow_led Color.teal) := by
  constructor
  · intro results hs hf
    unfold run_one_jenkins_led
    rw [if_neg (by omega), if_neg (by omega)]
  · intro results hnr hp hf ho
    unfold run_one_unity_led
    rw [if_neg (by omega), if_neg (by omega), if_neg (by omega), if_neg (by omega),
      if_pos ⟨hp, hf⟩]

/-- C1 witness: one success and one failure tie on Jenkins and resolve to
the red blink; one success against one failure on Unity gives teal. -/
theorem C1_witness :
    run_one_jenkins_led [Except.ok JenkinsBuildStatus.Success,
        Except.ok JenkinsBuildStatus.Failure] = LedAction.blink_led Color.red ∧
    run_one_unity_led [Except.ok (UnityBuildStatus.Success, ⟨none, none⟩),
        Except.ok (UnityBuildStatus.Failure, ⟨none, none⟩)] = LedAction.glow_led Color.teal := by
  constructor
  · have h := C1_mixed_success_failure.1
      [Except.ok JenkinsBuildStatus.Success, Except.ok JenkinsBuildStatus.Failure]
      (by decide) (by decide)
    rw [h]; decide
  · exact C1_mixed_success_failure.2
      [Except.ok (UnityBuildStatus.Success, ⟨none, none⟩),
       Except.ok (UnityBuildStatus.Failure, ⟨none, none⟩)]
      (by decide) (by decide) (by decide) (by decide)

/-- C1 counterexample: on Unity, one success against two failures still
glows teal (the Degraded signal), while the claim requires the Unhealthy
signal (the red blink used by every provider) whenever successes do not
outnumber failures. -/
theorem C1_unity_minority_success_not_unhealthy :
    run_one_unity_led [Except.ok (UnityBuildStatus.Failure, ⟨none, none⟩),
        Except.ok (UnityBuildStatus.Failure, ⟨none, none⟩),
        Except.ok (UnityBuildStatus.Success, ⟨none, none⟩)] = LedAction.glow_led Color.teal ∧
    LedAction.glow_led Color.teal ≠ LedAction.blink_led Color.red := by
  decide

/-- C2 (amended): with at least one success and no counted failure,
run_one_jenkins shows green (Healthy) exactly when successes outnumber the
indeterminate count and the teal glow (Degraded) otherwise, so Jenkins
never promotes indeterminate results to Healthy; run_one_unity, over
all-retrieved results, shows green whenever the other statuses do not
outnumber the passing ones, so a tie between passing and other statuses is
promoted to Healthy there, and shows blue otherwise. -/
theorem C2_successes_without_failures :
    (∀ results : List (Except String JenkinsBuildStatus),
        0 < build_successes results → build_failures results = 0 →
        run_one_jenkins_led results =
          if indeterminate_count results < build_successes results then
            LedAction.set_led_rgb_values Color.green
          else
            LedAction.glow_led Color.teal) ∧
    (∀ results : List UnityResult,
        unity_not_retrieved_count results = 0 →
        0 < passing_builds results → failing_builds results = 0 →
        run_one_unity_led results =
          if other_status_builds results ≤ passing_builds results then
            LedAction.set_led_rgb_values Color.green
          else
            LedAction.glow_led Color.blue) := by
  constructor
  · intro results hs hf
    unfold run_one_jenkins_led
    rw [if_neg (by omega), if_pos hf]
  · intro results hnr hp hf
    unfold run_one_unity_led
    rw [if_neg (by omega)]
    by_cases ho : other_status_builds results ≤ passing_builds results
    · rw [if_neg (by omega), if_pos ⟨hp, hf⟩, if_pos ho]
    · rw [if_pos (by omega), if_neg (by omega)]

/-- C2 witness: a lone success gives green on Jenkins; on Unity one
success and one building status give green. -/
theorem C2_witness :
    run_one_jenkins_led [Except.ok JenkinsBuildStatus.Success] =
      LedAction.set_led_rgb_values Color.green ∧
    run_one_unity_led [Except.ok (UnityBuildStatus.Success, ⟨none, none⟩),
        Except.ok (UnityBuildStatus.Building, ⟨none, none⟩)] =
      LedAction.set_led_rgb_values Color.green := by
  constructor
  · have h := C2_successes_without_failures.1 [Except.ok JenkinsBuildStatus.Success]
      (by decide) (by decide)
    rw [h]; decide
  · have h := C2_successes_without_failures.2
      [Except.ok (UnityBuildStatus.Success, ⟨none, none⟩),
       Except.ok (UnityBuildStatus.Building, ⟨none, none⟩)]
      (by decide) (by decide) (by decide)
    rw [h]; decide

/-- C2 counterexample: on Unity one passing build against one building
status is a tie between confirmed successes and indeterminates, yet the
led is set to solid green, the Healthy signal; the claim requires Healthy
only when successes strictly outnumber the indeterminate count. -/
theorem C2_unity_tie_promoted_to_healthy :
    passing_builds [Except.ok (UnityBuildStatus.Success, ⟨none, none⟩),
        Except.ok (UnityBuildStatus.Building, ⟨none, none⟩)] = 1 ∧
    other_status_builds [Except.ok (UnityBuildStatus.Success, ⟨none, none⟩),
        Except.ok (UnityBuildStatus.Building, ⟨none, none⟩)] = 1 ∧
    run_one_unity_led [Except.ok (UnityBuildStatus.Success, ⟨none, none⟩),
        Except.ok (UnityBuildStatus.Building, ⟨none, none⟩)] =
      LedAction.set_led_rgb_values Color.green := by
  decide

/-- C7 (amended): Jenkins glows blue (the signal shared by the Unreachable
and Ambiguous states) on the empty result sequence and on every sequence
whose records are all unretrieved; Unity glows blue exactly when some
record is unretrieved or when all are retrieved and the other statuses
outnumber passing and failing together, so a sequence with one retrieved
and one unretrieved record is mapped to blue rather than to the later
rules, and the empty sequence produces the purple fallback, not blue. -/
theorem C7_unreachable_conditions :
    run_one_jenkins_led [] = LedAction.glow_led Color.blue ∧
    (∀ results : List (Except String JenkinsBuildStatus),
        (∀ r ∈ results, r.toOption.isSome = false) →
        run_one_jenkins_led results = LedAction.glow_led Color.blue) ∧
    (∀ results : List UnityResult,
        run_one_unity_led results = LedAction.glow_led Color.blue ↔
          (0 < unity_not_retrieved_count results ∨
            (unity_not_retrieved_count results = 0 ∧
              passing_builds results + failing_builds results < other_status_builds results))) ∧
    run_one_unity_led ([] : List UnityResult) = LedAction.glow_led Color.purple := by
  refine ⟨by decide, ?_, ?_, by decide⟩
  · intro results hall
    have hret : retrieved_statuses results = [] := by
      simp only [retrieved_statuses, List.filterMap_eq_nil_iff]
      intro a ha
      have h := hall a ha
      cases a with
      | ok v => simp [Except.toOption] at h
      | error e => simp [Except.toOption]
    have hs : build_successes results = 0 := by
      simp [build_successes, hret]
    have hf : build_failures results = 0 := by
      simp [build_failures, hret]
    unfold run_one_jenkins_led
    rw [if_pos (by omega), if_pos (Or.inr hf)]
  · intro results
    unfold run_one_unity_led
    split_ifs with h1 h2 h3 h4 h5
    · exact iff_of_true rfl (Or.inl h1)
    · exact iff_of_true rfl (Or.inr ⟨by omega, h2⟩)
    · exact iff_of_false (by decide) (by omega)
    · exact iff_of_false (by decide) (by omega)
    · exact iff_of_false (by decide) (by omega)
    · exact iff_of_false (by decide) (by omega)

/-- C7 witness: a single unretrieved Jenkins job glows blue. -/
theorem C7_witness :
    run_one_jenkins_led [Except.error "connection refused"] = LedAction.glow_led Color.blue :=
  C7_unreachable_conditions.2.1 [Except.error "connection refused"] (by decide)

/-- C7 counterexample: the Unity aggregation of the empty sequence is the
purple fallback glow, not the blue glow that signals Unreachable. -/
theorem C7_unity_empty_is_purple :
    run_one_unity_led ([] : List UnityResult) = LedAction.glow_led Color.purple ∧
    LedAction.glow_led Color.purple ≠ LedAction.glow_led Color.blue := by
  decide

/-- C3 (confirmed): a worker whose body terminates abnormally on every
attempt makes run_and_recover increment the failure counter once per
failure until the counter exceeds the threshold; at that point, after
exactly threshold + 1 failures (the final counter value, starting from 0),
it stores false into the shared running flag, stops restarting the body
and returns the fatal error message formatted with that worker name. -/
theorem C3_budget_exceeded_forces_global_stop {R : Type} (thread_name : String)
    (allowed_total_failures : Nat) (body : Nat → Except String R)
    (hfail : ∀ n, ∃ e, body n = Except.error e) :
    run_and_recover thread_name allowed_total_failures body ⟨0, true⟩ 0 =
      (WorkerResult.err ("Failure count for " ++ thread_name ++ " exceeded, forcing stop."),
       ⟨allowed_total_failures + 1, false⟩) := by
  have key : ∀ d c att, c + d = allowed_total_failures + 1 →
      run_and_recover thread_name allowed_total_failures body ⟨c, true⟩ att =
        (WorkerResult.err ("Failure count for " ++ thread_name ++ " exceeded, forcing stop."),
         ⟨allowed_total_failures + 1, false⟩) := by
    intro d
    induction d with
    | zero =>
      intro c att hc
      unfold run_and_recover
      dsimp only
      rw [dif_pos (by omega)]
      have hceq : c = allowed_total_failures + 1 := by omega
      subst hceq
      rfl
    | succ d ih =>
      intro c att hc
      unfold run_and_recover
      dsimp only
      rw [dif_neg (by omega)]
      obtain ⟨e, he⟩ := hfail att
      rw [he]
      exact ih (c + 1) (att + 1) (by omega)
  exact key (allowed_total_failures + 1) 0 0 (by omega)

/-- C3 witness: with a threshold of 2 and a body that always fails, the
supervisor stops after 3 failures, clears the running flag and reports the
fatal message for the worker name. -/
theorem C3_witness :
    run_and_recover "Jenkins" 2
        (fun _ => (Except.error "thread terminated abnormally" : Except String Unit))
        ⟨0, true⟩ 0 =
      (WorkerResult.err ("Failure count for " ++ "Jenkins" ++ " exceeded, forcing stop."),
       ⟨3, false⟩) :=
  C3_budget_exceeded_forces_global_stop "Jenkins" 2
    (fun _ => (Except.error "thread terminated abnormally" : Except String Unit))
    (fun _ => ⟨"thread terminated abnormally", rfl⟩)

/-- C8 (confirmed): when the failure counter is within the budget and the
body returns normally on the attempt the supervisor runs, run_and_recover
returns that value wrapped in Ok and leaves the shared state, the failure
counter included, exactly as it was. -/
theorem C8_normal_return_leaves_counter_unchanged {R : Type} (thread_name : String)
    (allowed_total_failures : Nat) (body : Nat → Except String R)
    (st : SupervisorState) (attempt : Nat) (r : R)
    (hle : st.failure_count ≤ allowed_total_failures)
    (hok : body attempt = Except.ok r) :
    run_and_recover thread_name allowed_total_failures body st attempt =
      (WorkerResult.ok r, st) := by
  unfold run_and_recover
  rw [dif_neg (by omega), hok]

/-- C8 witness: a body returning 42 with the counter at 1 and the budget
at 3 terminates cleanly with Ok 42 and the counter still at 1. -/
theorem C8_witness :
    run_and_recover "Unity Cloud" 3 (fun _ => (Except.ok 42 : Except String Nat))
        ⟨1, true⟩ 0 =
      (WorkerResult.ok 42, ⟨1, true⟩) :=
  C8_normal_return_leaves_counter_unchanged "Unity Cloud" 3
    (fun _ => (Except.ok 42 : Except String Nat)) ⟨1, true⟩ 0 42 (by decide) rfl

/-- C4 (amended): a per-job fetch failure is converted into an error item
and never into a panic, and every appended error item raises exactly the
indeterminate bucket of the aggregation; classification of a successfully
fetched job is also panic free while the job is building or carries a
build result, but the branch taken when the job is not building unwraps
the optional build result and panics (the none outcome) when that field is
absent. -/
theorem C4_classification_outcomes :
    (∀ e : String, classify_job_response (Except.error e) = some (Except.error e)) ∧
    (∀ (results : List (Except String JenkinsBuildStatus)) (e : String),
        indeterminate_count (results ++ [Except.error e]) = indeterminate_count results + 1 ∧
        build_successes (results ++ [Except.error e]) = build_successes results ∧
        build_failures (results ++ [Except.error e]) = build_failures results) ∧
    (∀ job_result : JenkinsBuildResult, job_result.building = true →
        classify_job_response (Except.ok job_result) =
          some (Except.ok JenkinsBuildStatus.Building)) ∧
    (∀ (job_result : JenkinsBuildResult) (r : JenkinsBuildStatus),
        job_result.building = false → job_result.build_result = some r →
        classify_job_response (Except.ok job_result) = some (Except.ok r)) ∧
    (∀ job_result : JenkinsBuildResult, job_result.building = false →
        job_result.build_result = none →
        classify_job_response (Except.ok job_result) = none) := by
  refine ⟨fun e => rfl, ?_, ?_, ?_, ?_⟩
  · intro results e
    refine ⟨?_, ?_, ?_⟩ <;>
      simp [indeterminate_count, not_retrieved_count, build_successes, build_failures,
        retrieved_statuses, List.filterMap_append, List.countP_append, Except.toOption]
    omega
  · intro job_result hb
    simp [classify_job_response, hb]
  · intro job_result r hb hr
    simp [classify_job_response, hb, hr]
  · intro job_result hb hr
    simp [classify_job_response, hb, hr]

/-- C4 witness: a fetch error becomes an error item, and a building job
classifies to Building without reaching the unwrap. -/
theorem C4_witness :
    classify_job_response (Except.ok ⟨true, none⟩) =
      some (Except.ok JenkinsBuildStatus.Building) :=
  C4_classification_outcomes.2.2.1 ⟨true, none⟩ rfl

/-- C4 counterexample: a job whose fetch succeeds with building false and
no build result makes the not-building branch unwrap a none, a panic; run
on a one-job response, the whole fetch-and-classify pass panics (the none
outcome of get_jenkins_status) instead of producing an error item. -/
theorem C4_not_building_without_result_panics :
    classify_job_response (Except.ok ⟨false, none⟩) = none ∧
    get_jenkins_status (Except.ok ⟨[⟨"nightly", JenkinsJobColor.blue⟩]⟩)
      (fun _ => Except.ok ⟨false, none⟩) = none :=
  ⟨rfl, rfl⟩

/-- C9 (confirmed): a job whose color is Disabled or DisabledAnime is
dropped by the filter before the per-job fetch runs, so inserting it
anywhere in the job list changes neither the per-job result list nor the
overall get_jenkins_status outcome, and the result list over any job list
equals the one over its enabled jobs only; every aggregate bucket is
therefore computed over enabled jobs alone. -/
theorem C9_disabled_jobs_contribute_nothing (l1 l2 : List JenkinsJob) (job : JenkinsJob)
    (fetch_job : JenkinsJob → Except String JenkinsBuildResult)
    (hdis : job_enabled job = false) :
    jenkins_job_results (l1 ++ job :: l2) fetch_job = jenkins_job_results (l1 ++ l2) fetch_job ∧
    (∀ jobs : List JenkinsJob,
        jenkins_job_results jobs fetch_job =
          jenkins_job_results (jobs.filter job_enabled) fetch_job) ∧
    get_jenkins_status (Except.ok ⟨l1 ++ job :: l2⟩) fetch_job =
      get_jenkins_status (Except.ok ⟨l1 ++ l2⟩) fetch_job := by
  have hmain : jenkins_job_results (l1 ++ job :: l2) fetch_job
      = jenkins_job_results (l1 ++ l2) fetch_job := by
    unfold jenkins_job_results
    rw [List.filter_append, List.filter_append, List.filter_cons_of_neg (by simp [hdis])]
  refine ⟨hmain, ?_, ?_⟩
  · intro jobs
    unfold jenkins_job_results
    rw [List.filter_filter]
    simp
  · simp only [get_jenkins_status]
    rw [hmain]

/-- C9 witness: a disabled job inserted after an enabled one leaves the
per-job result list unchanged. -/
theorem C9_witness :
    jenkins_job_results
        [⟨"core", JenkinsJobColor.blue⟩, ⟨"legacy", JenkinsJobColor.disabled⟩]
        (fun _ => Except.error "connection refused") =
      jenkins_job_results [⟨"core", JenkinsJobColor.blue⟩]
        (fun _ => Except.error "connection refused") :=
  (C9_disabled_jobs_contribute_nothing [⟨"core", JenkinsJobColor.blue⟩] []
    ⟨"legacy", JenkinsJobColor.disabled⟩
    (fun _ => Except.error "connection refused") (by decide)).1

/-- C10 (confirmed): the loop of the generic worker start_thread has no
break and no return, so the loop never yields an exit value no matter how
many steps it runs, which led actions the remote integration performs or
what the running flag holds; start_thread therefore never reaches the
statements after the loop, the shutdown check, the terminal white glow and
the led off call included. -/
theorem C10_start_thread_loop_never_exits (update_led : Nat → LedAction)
    (running_flag : Bool) (fuel : Nat) :
    start_thread update_led running_flag fuel = none := by
  unfold start_thread
  have hloop : ∀ n : Nat, start_thread_loop update_led running_flag n = none := by
    intro n
    induction n with
    | zero => rfl
    | succ n ih => simp [start_thread_loop, ih]
  rw [hloop fuel]
  rfl

/-- Value of the saturating u64 cast on a whole number that fits. -/
theorem f32_to_u64_natCast (n : Nat) (hn : n ≤ U64_MAX) : f32_to_u64 ((n : ℚ)) = n := by
  have h : ((n : ℚ)).floor = (n : ℤ) := by
    rw [Rat.floor_def']
    simp
  have hU : U64_MAX = 18446744073709551615 := by norm_num [U64_MAX]
  unfold f32_to_u64
  rw [h]
  rw [hU] at hn ⊢
  omega

/-- Closed form of the sleep update when both rate limit headers are
present and the remaining quota is positive: the source computes
1 / (remaining / window), which over the rationals is window / remaining,
clamped below by the UNITY_SLEEP_DURATION constant. -/
theorem unity_next_sleep_duration_formula (results : List UnityResult)
    (now_unix_seconds sleep_duration : Nat)
    (r : UnityBuildStatus × RateHeaders) (rest : List (UnityBuildStatus × RateHeaders))
    (k m : Nat)
    (hret : unity_retrieved results = r :: rest)
    (hrem : r.2.x_rate_limit_remaining = some k)
    (hres : r.2.x_rate_limit_reset = some m)
    (hk : 0 < k) :
    unity_next_sleep_duration results now_unix_seconds sleep_duration =
      f32_to_u64 (max ((max ((m : ℚ) / 1000 - (now_unix_seconds : ℚ)) 1) / (k : ℚ))
        ((UNITY_SLEEP_DURATION : ℚ))) := by
  simp only [unity_next_sleep_duration, hret, hrem, hres]
  rw [if_neg (by omega), one_div_div]

/-- Lower bound for the saturating u64 cast of a value kept above a
numeric floor that itself fits in u64. -/
theorem le_f32_to_u64_max (x : ℚ) (n : Nat) (hn : n ≤ U64_MAX) :
    n ≤ f32_to_u64 (max x (n : ℚ)) := by
  have h1 : ((n : ℤ) : ℚ) ≤ max x (n : ℚ) := by
    push_cast
    exact le_max_right _ _
  have h2 : (n : ℤ) ≤ (max x (n : ℚ)).floor := Rat.le_floor.mpr h1
  have hU : U64_MAX = 18446744073709551615 := by norm_num [U64_MAX]
  unfold f32_to_u64
  rw [hU] at hn ⊢
  omega

/-- C5 (amended): the sleep interval update of run_one_unity leaves the
current interval unchanged when there is no retrieved result or either
rate limit header is missing; when both headers are present the result is
never below the floor UNITY_SLEEP_DURATION; and with a positive remaining
quota the result is the u64 cast of max(window / remaining, 60000), where
window = max(reset_seconds - now_seconds, 1) is measured in seconds while
the floor 60000 and the returned value are used as milliseconds, so the
candidate is not expressed in the unit of the floor. -/
theorem C5_sleep_duration_update :
    (∀ (results : List UnityResult) (now_unix_seconds sleep_duration : Nat),
        unity_retrieved results = [] →
        unity_next_sleep_duration results now_unix_seconds sleep_duration = sleep_duration) ∧
    (∀ (results : List UnityResult) (now_unix_seconds sleep_duration : Nat)
        (r : UnityBuildStatus × RateHeaders) (rest : List (UnityBuildStatus × RateHeaders)),
        unity_retrieved results = r :: rest →
        (r.2.x_rate_limit_remaining = none ∨ r.2.x_rate_limit_reset = none) →
        unity_next_sleep_duration results now_unix_seconds sleep_duration = sleep_duration) ∧
    (∀ (results : List UnityResult) (now_unix_seconds sleep_duration : Nat)
        (r : UnityBuildStatus × RateHeaders) (rest : List (UnityBuildStatus × RateHeaders))
        (k m : Nat),
        unity_retrieved results = r :: rest →
        r.2.x_rate_limit_remaining = some k →
        r.2.x_rate_limit_reset = some m →
        UNITY_SLEEP_DURATION ≤
          unity_next_sleep_duration results now_unix_seconds sleep_duration) ∧
    (∀ (results : List UnityResult) (now_unix_seconds sleep_duration : Nat)
        (r : UnityBuildStatus × RateHeaders) (rest : List (UnityBuildStatus × RateHeaders))
        (k m : Nat),
        unity_retrieved results = r :: rest →
        r.2.x_rate_limit_remaining = some k →
        r.2.x_rate_limit_reset = some m →
        0 < k →
        unity_next_sleep_duration results now_unix_seconds sleep_duration =
          f32_to_u64 (max ((max ((m : ℚ) / 1000 - (now_unix_seconds : ℚ)) 1) / (k : ℚ))
            ((UNITY_SLEEP_DURATION : ℚ)))) := by
  refine ⟨?_, ?_, ?_, ?_⟩
  · intro results now_unix_seconds sleep_duration hret
    simp [unity_next_sleep_duration, hret]
  · intro results now_unix_seconds sleep_duration r rest hret hor
    rcases hor with h | h
    · simp [unity_next_sleep_duration, hret, h]
    · cases hrem : r.2.x_rate_limit_remaining with
      | none => simp [unity_next_sleep_duration, hret, hrem]
      | some k => simp [unity_next_sleep_duration, hret, hrem, h]
  · intro results now_unix_seconds sleep_duration r rest k m hret hrem hres
    simp only [unity_next_sleep_duration, hret, hrem, hres]
    split_ifs with hk
    · norm_num [UNITY_SLEEP_DURATION, U64_MAX]
    · exact le_f32_to_u64_max _ _ (by norm_num [UNITY_SLEEP_DURATION, U64_MAX])
  · intro results now_unix_seconds sleep_duration r rest k m hret hrem hres hk
    exact unity_next_sleep_duration_formula results now_unix_seconds sleep_duration
      r rest k m hret hrem hres hk

/-- C5 witness: with 2 requests remaining and the reset 240 seconds past a
current time of 1000 seconds, the update returns the clamped value of the
formula, which works out to the 60000 floor. -/
theorem C5_witness :
    unity_next_sleep_duration
        [Except.ok (UnityBuildStatus.Success, ⟨some 2, some 1240000⟩)] 1000 60000 =
      f32_to_u64 (max ((max ((1240000 : ℚ) / 1000 - (1000 : ℚ)) 1) / (2 : ℚ))
        ((UNITY_SLEEP_DURATION : ℚ))) :=
  C5_sleep_duration_update.2.2.2
    [Except.ok (UnityBuildStatus.Success, ⟨some 2, some 1240000⟩)] 1000 60000
    (UnityBuildStatus.Success, ⟨some 2, some 1240000⟩) [] 2 1240000 rfl rfl rfl
    (by omega)

/-- C5 counterexample: with 1 request remaining and the reset 120 seconds
away, the spec formula with the candidate in the unit of the floor
(milliseconds) gives 120000, but the source computes the candidate in
seconds (120), clamps it against the millisecond floor 60000 and returns
60000, not 120000. -/
theorem C5_candidate_unit_mismatch :
    spec_next_interval 60000 (some ⟨1, 1120000⟩) 1000000 60000 = 120000 ∧
    unity_next_sleep_duration
        [Except.ok (UnityBuildStatus.Success, ⟨some 1, some 1120000⟩)] 1000 60000 = 60000 ∧
    (60000 : Nat) ≠ 120000 := by
  refine ⟨?_, ?_, by omega⟩
  · unfold spec_next_interval
    dsimp only
    have e0 : ((1120000 : Nat) : ℚ) - ((1000000 : Nat) : ℚ) = 120000 := by
      push_cast
      norm_num
    rw [e0, max_eq_left (by norm_num)]
    have e1 : ((1 : Nat) : ℚ) = 1 := by push_cast; rfl
    rw [e1, one_div_one_div, max_eq_left (by norm_num)]
  · rw [unity_next_sleep_duration_formula
      [Except.ok (UnityBuildStatus.Success, ⟨some 1, some 1120000⟩)] 1000 60000
      (UnityBuildStatus.Success, ⟨some 1, some 1120000⟩) [] 1 1120000 rfl rfl rfl
      (by omega)]
    have e1 : max (((1120000 : Nat) : ℚ) / 1000 - ((1000 : Nat) : ℚ)) 1 / ((1 : Nat) : ℚ)
        = 120 := by
      push_cast
      rw [div_one, max_eq_left (by norm_num)]
      norm_num
    rw [e1]
    have e2 : max (120 : ℚ) ((UNITY_SLEEP_DURATION : ℚ)) = ((60000 : Nat) : ℚ) := by
      rw [max_eq_right (by norm_num [UNITY_SLEEP_DURATION])]
      norm_num [UNITY_SLEEP_DURATION]
    rw [e2, f32_to_u64_natCast 60000 (by norm_num [U64_MAX])]

end RustyBuildLight
